import Mathlib

/-!
Verification of the obobo-nodes worker-fleet supervisor

This file gives a shallow embedding of the supervisor shell script
(`run_workers.sh`, the EC2-aware variant): per-GPU worker units, each a
triple of processes (ComfyUI backend, cloudflared tunnel, job worker),
tracked in the associative arrays COMFYUI_PIDS / WORKER_PIDS /
CLOUDFLARED_PIDS, with idle-signal flag files
`/tmp/worker_shutdown_${WORKER_ID}.flag` and tunnel logs
`/tmp/cloudflared_${WORKER_ID}.log`.

The embedding models:
* the fleet state (PID tables, flag/log file presence, flag file
  contents, process liveness as observed by the `kill -0` probe, and the
  `--shutdown_machine` configuration);
* `check_worker_shutdown_flags` (idle coordinator);
* `cleanup_worker` / `start_worker` (restart controller / unit launcher);
* the monitor loop body (one tick);
* the script's trailing control flow (the registration-watchdog block
  placed after the `while true` monitor loop);
* command-line parsing and GPU validation;
* `terminate_ec2_instance` and the failure handling of the script's
  external calls.

PIDs are natural numbers; `alive p` is the result of the `kill -0 p`
probe (a process missing from the process table probes as not alive).
Worker ids are `${INSTANCE_ID}_${GPU_ID}`, injective in the GPU id for a
fixed instance, so files keyed by worker id are modelled as keyed by the
GPU id.
-/

/-- Which shutdown path `check_worker_shutdown_flags` (or the
`remaining_active`-is-zero branch) takes: EC2 instance termination
(`cleanup_for_machine_shutdown; terminate_ec2_instance`) or local-only
process shutdown (`cleanup_all`). -/
inductive ShutdownPath where
  | terminateInstance
  | terminateLocal
deriving DecidableEq, Repr

/-- The supervisor's mutable state, read off the shell script's globals:
`GPUS` (the validated GPU id list), the three per-GPU PID tables, the
presence and contents of each worker's idle-signal flag file, the
presence of each worker's cloudflared log file, the `kill -0` liveness
probe, and the `--shutdown_machine` configuration flag. -/
structure FleetState where
  gpus : List Nat
  comfyuiPids : Nat → Option Nat
  workerPids : Nat → Option Nat
  cloudflaredPids : Nat → Option Nat
  /-- Whether `/tmp/worker_shutdown_${INSTANCE_ID}_${g}.flag` exists. -/
  flagPresent : Nat → Bool
  /-- contents of that flag file (meaningful only when present);
  written by the worker process, never read by this supervisor. -/
  flagContent : Nat → String
  /-- Whether `/tmp/cloudflared_${INSTANCE_ID}_${g}.log` exists. -/
  logPresent : Nat → Bool
  /-- result of the `kill -0 p` probe: `false` for a PID that is
  missing from the process table or whose process has died. -/
  alive : Nat → Bool
  /-- Whether `SHUTDOWN_MACHINE_FLAG` is nonempty (`--shutdown_machine`). -/
  shutdownMachine : Bool

/-- The counting loop of `check_worker_shutdown_flags`: walk `GPUS`,
count workers that still have a `WORKER_PIDS` entry (`active_workers`),
and among those the ones whose flag file exists
(`flagged_idle_workers`). Direct translation of the `for` loop. -/
def countActiveAndFlagged (s : FleetState) : Nat × Nat :=
  s.gpus.foldl
    (fun acc g =>
      if (s.workerPids g).isSome then
        (acc.1 + 1, if s.flagPresent g then acc.2 + 1 else acc.2)
      else acc)
    (0, 0)

/-- Function `check_worker_shutdown_flags`: if `active_workers > 0` and
`flagged_idle_workers == active_workers`, a coordinated shutdown is
initiated — EC2 termination when `SHUTDOWN_MACHINE_FLAG` is set,
local-only otherwise; in every other case the function does nothing.
The flag files' contents are never read by this function (it tests
only `-f "$FLAG_FILE"`). -/
def check_worker_shutdown_flags (s : FleetState) : Option ShutdownPath :=
  let c := countActiveAndFlagged s
  if 0 < c.1 ∧ c.2 = c.1 then
    some (if s.shutdownMachine then .terminateInstance else .terminateLocal)
  else
    none

/-- Specification-side count of active units: units of the fleet with a
recorded worker PID entry. -/
def activeUnits (s : FleetState) : Nat :=
  (s.gpus.filter (fun g => (s.workerPids g).isSome)).length

/-- Specification-side count of active units whose idle-signal file
exists. -/
def flaggedActiveUnits (s : FleetState) : Nat :=
  (s.gpus.filter
    (fun g => (s.workerPids g).isSome && s.flagPresent g)).length

/-- The three PIDs recorded for slot `g` (those entries that exist). -/
def recordedPids (s : FleetState) (g : Nat) : List Nat :=
  (s.comfyuiPids g).toList ++ (s.workerPids g).toList ++
    (s.cloudflaredPids g).toList

/-- One `kill` block of `cleanup_worker`: if the entry exists and the
process answers the `kill -0` probe, signal it (TERM then KILL); the
process is dead afterwards.  Returns the updated state and the list of
PIDs that were signalled. -/
def killIfAlive (s : FleetState) (entry : Option Nat) :
    FleetState × List Nat :=
  match entry with
  | none => (s, [])
  | some p =>
    if s.alive p then
      ({ s with alive := fun q => if q = p then false else s.alive q }, [p])
    else (s, [])

/-- Function `cleanup_worker gpu_id`: kill the slot's ComfyUI, worker and
cloudflared processes (each only if still alive), remove the slot's
cloudflared log and idle-signal flag file, and unset the slot's three
PID entries.  Returns the new state and the PIDs signalled. -/
def cleanup_worker (s : FleetState) (g : Nat) : FleetState × List Nat :=
  let r1 := killIfAlive s (s.comfyuiPids g)
  let r2 := killIfAlive r1.1 (r1.1.workerPids g)
  let r3 := killIfAlive r2.1 (r2.1.cloudflaredPids g)
  let s3 := r3.1
  ({ s3 with
      flagPresent := fun x => if x = g then false else s3.flagPresent x
      logPresent := fun x => if x = g then false else s3.logPresent x
      comfyuiPids := fun x => if x = g then none else s3.comfyuiPids x
      workerPids := fun x => if x = g then none else s3.workerPids x
      cloudflaredPids := fun x =>
        if x = g then none else s3.cloudflaredPids x },
   r1.2 ++ r2.2 ++ r3.2)

/-- Function `start_worker gpu_id` (state effect): spawn ComfyUI, then
cloudflared (its output redirected to the slot's log file, which
therefore exists afterwards), then the job worker, recording the three
fresh PIDs in the slot's entries.  `fresh` is the next unused PID; the
spawned processes receive PIDs `fresh`, `fresh+1`, `fresh+2` (in spawn
order ComfyUI, cloudflared, worker) and are alive.  Returns the new
state and the next unused PID. -/
def start_worker (s : FleetState) (g : Nat) (fresh : Nat) :
    FleetState × Nat :=
  ({ s with
      comfyuiPids := fun x => if x = g then some fresh else s.comfyuiPids x
      cloudflaredPids := fun x =>
        if x = g then some (fresh + 1) else s.cloudflaredPids x
      workerPids := fun x =>
        if x = g then some (fresh + 2) else s.workerPids x
      logPresent := fun x => if x = g then true else s.logPresent x
      alive := fun q =>
        if q = fresh ∨ q = fresh + 1 ∨ q = fresh + 2 then true
        else s.alive q },
   fresh + 3)

/-- The `died` test of the monitor loop for one slot: an entry is
present (`-n`) and its process fails the `kill -0` probe. -/
def died (s : FleetState) (g : Nat) : Bool :=
  (match s.comfyuiPids g with
   | some p => !s.alive p
   | none => false) ||
  (match s.workerPids g with
   | some p => !s.alive p
   | none => false) ||
  (match s.cloudflaredPids g with
   | some p => !s.alive p
   | none => false)

/-- The restart of one unit, as performed by the monitor loop on a dead
unit: `cleanup_worker` followed by `start_worker` on the same slot.
Returns the new state, the next unused PID, and the PIDs signalled by
the cleanup. -/
def restartUnit (s : FleetState) (g : Nat) (fresh : Nat) :
    FleetState × Nat × List Nat :=
  let c := cleanup_worker s g
  let r := start_worker c.1 g fresh
  (r.1, r.2, c.2)

/-- One iteration of the monitor loop's per-slot death check: if any of
the slot's recorded processes died, `cleanup_worker` then
`start_worker` for that slot, and record the slot as restarted. -/
def restartStep (acc : FleetState × Nat × List Nat) (g : Nat) :
    FleetState × Nat × List Nat :=
  if died acc.1 g then
    let r := restartUnit acc.1 g acc.2.1
    (r.1, r.2.1, acc.2.2 ++ [g])
  else acc

/-- The monitor loop's full pass over `GPUS`: restart every slot whose
processes died.  Returns the new state, the next unused PID and the
list of restarted slots (in `GPUS` order). -/
def restartPass (s : FleetState) (fresh : Nat) :
    FleetState × Nat × List Nat :=
  s.gpus.foldl restartStep (s, fresh, [])

/-- Outcome of one iteration of the monitor loop (`while true`). -/
inductive TickResult where
  /-- Case where `check_worker_shutdown_flags` initiated a coordinated shutdown:
  the script exits after the corresponding cleanup path. -/
  | exitedIdle (path : ShutdownPath)
  /-- the `remaining_active == 0 && --shutdown_machine` branch:
  terminate the EC2 instance and exit. -/
  | exitedNoActive
  /-- the loop continues: new state, next unused PID, restarted slots. -/
  | running (s : FleetState) (fresh : Nat) (restarted : List Nat)

/-- One iteration of the monitor loop: first
`check_worker_shutdown_flags` (takes priority; on a decision the script
exits), then the per-slot death check with restart, then the
`remaining_active` re-count over `WORKER_PIDS` entries with the
no-active-workers EC2-termination branch. -/
def monitorTick (s : FleetState) (fresh : Nat) : TickResult :=
  match check_worker_shutdown_flags s with
  | some path => .exitedIdle path
  | none =>
    let r := restartPass s fresh
    if activeUnits r.1 = 0 ∧ r.1.shutdownMachine then .exitedNoActive
    else .running r.1 r.2.1 r.2.2

/-- Launch of the initial fleet: `start_worker` for every configured
GPU in order (the startup loop after flag cleanup). -/
def startAllWorkers (s : FleetState) (fresh : Nat) : FleetState × Nat :=
  s.gpus.foldl (fun acc g => start_worker acc.1 g acc.2) (s, fresh)

/-! Script tail control flow (monitor loop vs. watchdog block)

In the script the statements appear in this order: the initial
`start_worker` loop, then the `while true` monitor loop, then — after
the loop's `done` — the `if [ -n "$SHUTDOWN_MACHINE_FLAG" ]` block that
spawns the registration-watchdog subshell in the background.  Control
reaches that block only if the `while true` loop is left; the loop's
condition is the literal `true`, so the only exits from it are the
`exit 0` statements inside the shutdown paths, which terminate the
whole script. -/

/-- Program counter for the part of the script from the monitor loop
on: inside the `while true` loop, past the loop's `done` (where the
watchdog subshell would be spawned), or script already exited. -/
inductive TailPC where
  | monitorLoop
  | afterMonitorLoop
  | scriptExited
deriving DecidableEq, Repr

/-- One step of the script's trailing control flow.  `exits` says
whether this iteration of the loop body runs one of its `exit 0`
statements (idle shutdown or no-active-workers termination).  The
`while true` loop otherwise transfers control back to its own head —
never past `done`. -/
def supervisorTailStep (exits : Bool) : TailPC → TailPC
  | .monitorLoop => if exits then .scriptExited else .monitorLoop
  | .afterMonitorLoop => .afterMonitorLoop
  | .scriptExited => .scriptExited

/-- The script's control-flow position after `n` loop iterations,
starting at the top of the monitor loop, where iteration `i` exits the
script iff `exits i`. -/
def runSupervisorTail (exits : Nat → Bool) : Nat → TailPC
  | 0 => .monitorLoop
  | n + 1 => supervisorTailStep (exits n) (runSupervisorTail exits n)

/-! Launch sequence of `start_worker` (event trace)

`start_worker` (lines 146–220) in temporal detail: spawn ComfyUI; poll
`curl http://127.0.0.1:$port` once per second until it answers
(unbounded); spawn cloudflared; poll the cloudflared log for a
`https://….trycloudflare.com` URL for at most 30 one-second attempts;
if none was found keep `tunnel_url=""`; finally spawn the worker with
that (possibly empty) tunnel URL. -/

/-- Events of one `start_worker` invocation. -/
inductive StartEvent where
  | spawnComfyui
  /-- one `curl` probe of the local ComfyUI endpoint and its result. -/
  | backendProbe (ok : Bool)
  | spawnCloudflared
  /-- one grep of the cloudflared log; `found` is the URL if any. -/
  | tunnelPoll (found : Option String)
  /-- spawn of the job worker, carrying the tunnel URL passed via
  `--tunnel_url` (empty when discovery failed). -/
  | spawnWorker (tunnelUrl : String)
deriving DecidableEq, Repr

/-- The tunnel URL obtained by the 30-attempt poll: the first URL the
log yields within attempts `0..29`, or `""` when none appears
(`tunnel_url=""` fallback). -/
def tunnelUrlAfterPoll (logUrl : Nat → Option String) : String :=
  ((List.range 30).findSome? logUrl).getD ("")

/-- The number of poll attempts actually made: attempts stop at the
first success, and never exceed 30. -/
def tunnelPollAttempts (logUrl : Nat → Option String) : List Nat :=
  (List.range 30).takeWhile (fun n => (logUrl n).isNone)

/-- The event trace of one `start_worker` invocation.  `ready n` is the
result of the `n`-th backend probe (the loop needs some probe to
succeed to terminate, hypothesis `h`); `logUrl n` is the URL the log
grep yields at poll attempt `n`.  The trace is: spawn ComfyUI, the
backend probes up to and including the first success, spawn
cloudflared, the tunnel polls up to the first success (at most 30),
spawn the worker with the discovered-or-empty URL. -/
def startWorkerTrace (ready : Nat → Bool) (h : ∃ n, ready n = true)
    (logUrl : Nat → Option String) : List StartEvent :=
  [.spawnComfyui] ++
    ((List.range (Nat.find h + 1)).map (fun n => .backendProbe (ready n))) ++
    [.spawnCloudflared] ++
    ((tunnelPollAttempts logUrl).map (fun n => .tunnelPoll (logUrl n))) ++
    (match ((List.range 30).findSome? logUrl) with
     | some u => [.tunnelPoll (some u)]
     | none => []) ++
    [.spawnWorker (tunnelUrlAfterPoll logUrl)]

/-! Command-line parsing and GPU validation (startup) -/

/-- Parsed configuration (defaults: `GPUS=(0)`,
`SHUTDOWN_MACHINE_FLAG=""`, `IDLE_TIMEOUT=300`). -/
structure Config where
  gpus : List Nat
  shutdownMachine : Bool
  idleTimeout : Nat
deriving DecidableEq, Repr

/-- The bash regex test `[[ "$x" =~ ^[0-9]+$ ]]`: nonempty and all
digits (stated over the string's character list). -/
def isNumeric (x : String) : Bool :=
  !x.data.isEmpty && x.data.all Char.isDigit

/-- The numeric value of a digit string (shell arithmetic on a value
that already passed the regex test). -/
def strToNat (x : String) : Nat :=
  x.data.foldl (fun acc c => acc * 10 + (c.toNat - 48)) 0

/-- Comma splitting of a character list (accumulator holds the current
field reversed). -/
def splitCommaAux : List Char → List Char → List String
  | [], cur => [String.mk cur.reverse]
  | c :: cs, cur =>
    if c = ',' then String.mk cur.reverse :: splitCommaAux cs []
    else splitCommaAux cs (c :: cur)

/-- Bash `IFS=',' read -ra GPUS <<< "$GPU_LIST"`: split on commas; a single
trailing delimiter yields no trailing empty field. -/
def splitGpuList (x : String) : List String :=
  let ps := splitCommaAux x.data []
  if ps.getLast? = some ("") then ps.dropLast else ps

/-- The argument-parsing `while`/`case` loop (after the instance-id
argument was consumed).  Fatal configuration errors (`exit 1`) are
`.error`: an empty `--gpus` value, a non-numeric GPU id, a
non-numeric or below-60 `--idle_timeout`, and any unknown option.  A
flag expecting a value that is last on the line sees `$2` as the empty
string. -/
def parseArgs : List String → Config → Except String Config
  | [], c => .ok c
  | ["--gpus"], _ =>
    .error ("Error: --gpus requires a comma-separated list of GPU IDs")
  | "--gpus" :: v :: rest, c =>
    if v = "" then
      .error ("Error: --gpus requires a comma-separated list of GPU IDs")
    else
      let parts := splitGpuList v
      if parts.all isNumeric then
        parseArgs rest { c with gpus := parts.map (fun p => strToNat p) }
      else
        .error ("Error: GPU ID is not a valid number")
  | "--shutdown_machine" :: rest, c =>
    parseArgs rest { c with shutdownMachine := true }
  | ["--idle_timeout"], _ =>
    .error ("Error: idle_timeout must be a number >= 60 seconds")
  | "--idle_timeout" :: t :: rest, c =>
    if isNumeric t && 60 ≤ strToNat t then
      parseArgs rest { c with idleTimeout := strToNat t }
    else
      .error ("Error: idle_timeout must be a number >= 60 seconds")
  | _ :: _, _ => .error ("Unknown option")

/-- GPU validation against the machine (lines 322–340): requested ids
not in `[0, totalGpus)` are dropped with a warning only; if none
remain, the list defaults to `[0]`.  This phase never fails. -/
def validateGpus (gpus : List Nat) (totalGpus : Nat) : List Nat :=
  let v := gpus.filter (fun g => g < totalGpus)
  if v.isEmpty then [0] else v

/-- Full startup configuration: parse the options, then validate the
GPU list against the `totalGpus` available on the machine. -/
def startupConfig (args : List String) (totalGpus : Nat) :
    Except String Config :=
  (parseArgs args
      { gpus := [0], shutdownMachine := false, idleTimeout := 300 }).map
    (fun c => { c with gpus := validateGpus c.gpus totalGpus })

/-- The slots actually launched by the startup sequence: none when
configuration parsing failed (the script exits before the
`start_worker` loop), otherwise the validated GPU list. -/
def launchedSlots (args : List String) (totalGpus : Nat) : List Nat :=
  match startupConfig args totalGpus with
  | .error _ => []
  | .ok c => c.gpus

/-! Instance termination and external-call failure handling -/

/-- Externally visible actions of `terminate_ec2_instance`. -/
inductive TermAction where
  /-- the `aws ec2 terminate-instances` call. -/
  | awsTerminate
  /-- Command `sudo shutdown -h now`. -/
  | localPoweroff
deriving DecidableEq, Repr

/-- Function `terminate_ec2_instance`: with a nonempty instance id, call the AWS
termination API; if that call fails, fall back to `sudo shutdown -h
now`.  With no instance id, go straight to `sudo shutdown -h now`. -/
def terminate_ec2_instance (instanceId : String) (awsOk : Bool) :
    List TermAction :=
  if instanceId ≠ "" then
    if awsOk then [.awsTerminate]
    else [.awsTerminate, .localPoweroff]
  else [.localPoweroff]

/-- The script's external calls. -/
inductive ExternalCall where
  /-- The `curl http://127.0.0.1:$port` backend readiness probe. -/
  | backendProbe
  /-- grep of the cloudflared log for the tunnel URL. -/
  | tunnelUrlDiscovery
  /-- The `nvidia-smi -L` GPU detection. -/
  | gpuDetection
  /-- The `curl "$API_URL/v1/worker/$WORKER_ID"` registration check. -/
  | registrationCheck
  /-- The `curl http://169.254.169.254/...` instance-metadata query. -/
  | metadataRegion
  /-- The `aws ec2 terminate-instances` call. -/
  | awsTerminateCall
deriving DecidableEq, Repr

/-- How the script reacts when an external call fails. -/
inductive FailureHandling where
  /-- retry the same call (possibly until a deadline). -/
  | retry
  /-- proceed with a default value (empty URL, `TOTAL_GPUS=1`,
  empty region string). -/
  | useDefault
  /-- perform a different action to reach the same goal
  (`sudo shutdown -h now`). -/
  | fallbackPoweroff
deriving DecidableEq, Repr

/-- The on-failure behaviour of each external call, read off the
script: the backend probe loops until success; tunnel-URL discovery
gives up after 30 tries and continues with `tunnel_url=""`;
`nvidia-smi` failure defaults `TOTAL_GPUS` to 1; the registration check
is retried each watchdog tick; a failed metadata query leaves the
region argument empty; only a failed `aws ec2 terminate-instances`
triggers a substitute action, `sudo shutdown -h now`. -/
def onFailure : ExternalCall → FailureHandling
  | .backendProbe => .retry
  | .tunnelUrlDiscovery => .useDefault
  | .gpuDetection => .useDefault
  | .registrationCheck => .retry
  | .metadataRegion => .useDefault
  | .awsTerminateCall => .fallbackPoweroff

/-! Well-formedness of fleet states

Operating-system facts about real PID tables, used as hypotheses of the
frame and restart theorems: all recorded PIDs are below the next PID the
system will hand out, and two different slots never record the same
PID. -/

/-- All recorded PIDs are below `fresh` (the next PID to be issued). -/
def PidsBounded (s : FleetState) (fresh : Nat) : Prop :=
  ∀ g ∈ s.gpus, ∀ p ∈ recordedPids s g, p < fresh

/-- Different slots never record the same PID. -/
def PidsDisjoint (s : FleetState) : Prop :=
  ∀ g ∈ s.gpus, ∀ g' ∈ s.gpus, g ≠ g' →
    ∀ p, p ∈ recordedPids s g → p ∉ recordedPids s g'

/-- Every configured slot has a recorded worker PID entry (the
`active_workers == NUM_GPUS` situation). -/
def AllWorkersRecorded (s : FleetState) : Prop :=
  ∀ g ∈ s.gpus, (s.workerPids g).isSome

/-! Concrete fleet states for counterexamples and witnesses -/

/-- One slot; its worker is alive and its idle-signal file is present
with the machine-shutdown payload, but the supervisor was started
without `--shutdown_machine`. -/
def oneSlotMachineFlagged : FleetState :=
  { gpus := [0]
    comfyuiPids := fun g => if g = 0 then some 3 else none
    workerPids := fun g => if g = 0 then some 5 else none
    cloudflaredPids := fun g => if g = 0 then some 4 else none
    flagPresent := fun g => g == 0
    flagContent := fun _ => "SHUTDOWN_MACHINE"
    logPresent := fun _ => true
    alive := fun _ => true
    shutdownMachine := false }

/-- One slot whose three processes are all dead while its idle-signal
file is present; `--shutdown_machine` off. -/
def oneSlotDeadFlagged : FleetState :=
  { gpus := [0]
    comfyuiPids := fun g => if g = 0 then some 3 else none
    workerPids := fun g => if g = 0 then some 5 else none
    cloudflaredPids := fun g => if g = 0 then some 4 else none
    flagPresent := fun g => g == 0
    flagContent := fun _ => ""
    logPresent := fun _ => true
    alive := fun _ => false
    shutdownMachine := false }

/-- Two slots with disjoint PID triples; slot 1's worker (PID 21) is
dead, slot 0 is fully alive; only slot 0's idle-signal file exists. -/
def twoSlotOneDead : FleetState :=
  { gpus := [0, 1]
    comfyuiPids := fun g => if g = 0 then some 10 else
      if g = 1 then some 20 else none
    workerPids := fun g => if g = 0 then some 11 else
      if g = 1 then some 21 else none
    cloudflaredPids := fun g => if g = 0 then some 12 else
      if g = 1 then some 22 else none
    flagPresent := fun g => g == 0
    flagContent := fun _ => ""
    logPresent := fun _ => true
    alive := fun p => p != 21
    shutdownMachine := true }

/-- Like `twoSlotOneDead` but the idle-signal file sits on the dead
slot 1 instead of the healthy slot 0. -/
def twoSlotOneDeadFlagged : FleetState :=
  { twoSlotOneDead with flagPresent := fun g => g == 1 }

theorem countActiveAndFlagged_go (s : FleetState) (l : List Nat)
    (a b : Nat) :
    l.foldl
      (fun acc g =>
        if (s.workerPids g).isSome then
          (acc.1 + 1, if s.flagPresent g then acc.2 + 1 else acc.2)
        else acc)
      (a, b) =
    (a + (l.filter (fun g => (s.workerPids g).isSome)).length,
     b + (l.filter
       (fun g => (s.workerPids g).isSome && s.flagPresent g)).length) := by
  induction l generalizing a b with
  | nil => simp
  | cons g l ih =>
    by_cases hw : (s.workerPids g).isSome
    · by_cases hf : s.flagPresent g
      · simp [List.foldl, hw, hf, ih, List.filter]
        omega
      · simp [List.foldl, hw, hf, ih, List.filter]
        omega
    · simp [List.foldl, hw, ih, List.filter]

/-- The fold in `check_worker_shutdown_flags` computes exactly the two
filter-lengths. -/
theorem countActiveAndFlagged_eq (s : FleetState) :
    countActiveAndFlagged s = (activeUnits s, flaggedActiveUnits s) := by
  unfold countActiveAndFlagged activeUnits flaggedActiveUnits
  simpa using countActiveAndFlagged_go s s.gpus 0 0

/-! Frame lemmas for the restart machinery -/

theorem killIfAlive_gpus (s : FleetState) (e : Option Nat) :
    (killIfAlive s e).1.gpus = s.gpus := by
  unfold killIfAlive; cases e with
  | none => rfl
  | some p => dsimp only; split <;> rfl

theorem killIfAlive_comfyuiPids (s : FleetState) (e : Option Nat) :
    (killIfAlive s e).1.comfyuiPids = s.comfyuiPids := by
  unfold killIfAlive; cases e with
  | none => rfl
  | some p => dsimp only; split <;> rfl

theorem killIfAlive_workerPids (s : FleetState) (e : Option Nat) :
    (killIfAlive s e).1.workerPids = s.workerPids := by
  unfold killIfAlive; cases e with
  | none => rfl
  | some p => dsimp only; split <;> rfl

theorem killIfAlive_cloudflaredPids (s : FleetState) (e : Option Nat) :
    (killIfAlive s e).1.cloudflaredPids = s.cloudflaredPids := by
  unfold killIfAlive; cases e with
  | none => rfl
  | some p => dsimp only; split <;> rfl

theorem killIfAlive_flagPresent (s : FleetState) (e : Option Nat) :
    (killIfAlive s e).1.flagPresent = s.flagPresent := by
  unfold killIfAlive; cases e with
  | none => rfl
  | some p => dsimp only; split <;> rfl

theorem killIfAlive_flagContent (s : FleetState) (e : Option Nat) :
    (killIfAlive s e).1.flagContent = s.flagContent := by
  unfold killIfAlive; cases e with
  | none => rfl
  | some p => dsimp only; split <;> rfl

theorem killIfAlive_logPresent (s : FleetState) (e : Option Nat) :
    (killIfAlive s e).1.logPresent = s.logPresent := by
  unfold killIfAlive; cases e with
  | none => rfl
  | some p => dsimp only; split <;> rfl

theorem killIfAlive_shutdownMachine (s : FleetState) (e : Option Nat) :
    (killIfAlive s e).1.shutdownMachine = s.shutdownMachine := by
  unfold killIfAlive; cases e with
  | none => rfl
  | some p => dsimp only; split <;> rfl

theorem killIfAlive_killed_mem (s : FleetState) (e : Option Nat) :
    ∀ p ∈ (killIfAlive s e).2, e = some p := by
  unfold killIfAlive; cases e with
  | none => simp
  | some q => dsimp only; split <;> simp

theorem killIfAlive_alive_of_ne (s : FleetState) (e : Option Nat)
    (q : Nat) (hq : ∀ p, e = some p → q ≠ p) :
    (killIfAlive s e).1.alive q = s.alive q := by
  unfold killIfAlive; cases e with
  | none => rfl
  | some p =>
    dsimp only; split
    · simp only []
      rw [if_neg (hq p rfl)]
    · rfl

theorem killIfAlive_alive_mono (s : FleetState) (e : Option Nat)
    (q : Nat) (h : (killIfAlive s e).1.alive q = true) :
    s.alive q = true := by
  revert h; unfold killIfAlive; cases e with
  | none => exact id
  | some p =>
    dsimp only; split
    · intro h
      by_cases hqp : q = p
      · simp [hqp] at h
      · simpa [hqp] using h
    · exact id

theorem cleanup_worker_gpus (s : FleetState) (g : Nat) :
    (cleanup_worker s g).1.gpus = s.gpus := by
  unfold cleanup_worker
  simp [killIfAlive_gpus]

theorem cleanup_worker_shutdownMachine (s : FleetState) (g : Nat) :
    (cleanup_worker s g).1.shutdownMachine = s.shutdownMachine := by
  unfold cleanup_worker
  simp [killIfAlive_shutdownMachine]

theorem cleanup_worker_flagContent (s : FleetState) (g : Nat) :
    (cleanup_worker s g).1.flagContent = s.flagContent := by
  unfold cleanup_worker
  simp [killIfAlive_flagContent]

theorem cleanup_worker_comfyuiPids (s : FleetState) (g x : Nat) :
    (cleanup_worker s g).1.comfyuiPids x =
      if x = g then none else s.comfyuiPids x := by
  unfold cleanup_worker
  simp [killIfAlive_comfyuiPids]

theorem cleanup_worker_workerPids (s : FleetState) (g x : Nat) :
    (cleanup_worker s g).1.workerPids x =
      if x = g then none else s.workerPids x := by
  unfold cleanup_worker
  simp [killIfAlive_workerPids]

theorem cleanup_worker_cloudflaredPids (s : FleetState) (g x : Nat) :
    (cleanup_worker s g).1.cloudflaredPids x =
      if x = g then none else s.cloudflaredPids x := by
  unfold cleanup_worker
  simp [killIfAlive_cloudflaredPids]

theorem cleanup_worker_flagPresent (s : FleetState) (g x : Nat) :
    (cleanup_worker s g).1.flagPresent x =
      if x = g then false else s.flagPresent x := by
  unfold cleanup_worker
  simp [killIfAlive_flagPresent]

theorem cleanup_worker_logPresent (s : FleetState) (g x : Nat) :
    (cleanup_worker s g).1.logPresent x =
      if x = g then false else s.logPresent x := by
  unfold cleanup_worker
  simp [killIfAlive_logPresent]

theorem cleanup_worker_killed_sub (s : FleetState) (g : Nat) :
    ∀ p ∈ (cleanup_worker s g).2, p ∈ recordedPids s g := by
  intro p hp
  unfold cleanup_worker at hp
  simp only [List.mem_append] at hp
  rcases hp with (h | h) | h
  · have := killIfAlive_killed_mem s (s.comfyuiPids g) p h
    simp [recordedPids, this]
  · have := killIfAlive_killed_mem _ _ p h
    rw [killIfAlive_workerPids] at this
    simp [recordedPids, this]
  · have := killIfAlive_killed_mem _ _ p h
    simp only [killIfAlive_cloudflaredPids] at this
    simp [recordedPids, this]

theorem cleanup_worker_alive_of_not_recorded (s : FleetState) (g q : Nat)
    (hq : q ∉ recordedPids s g) :
    (cleanup_worker s g).1.alive q = s.alive q := by
  simp only [recordedPids, List.mem_append, Option.mem_toList,
    Option.mem_def, not_or] at hq
  obtain ⟨⟨hc, hw⟩, hf⟩ := hq
  unfold cleanup_worker
  dsimp only
  rw [killIfAlive_alive_of_ne, killIfAlive_alive_of_ne,
    killIfAlive_alive_of_ne]
  · intro p hp heq
    exact hc (heq ▸ hp)
  · simp only [killIfAlive_workerPids]
    intro p hp heq
    exact hw (heq ▸ hp)
  · simp only [killIfAlive_cloudflaredPids]
    intro p hp heq
    exact hf (heq ▸ hp)

theorem cleanup_worker_alive_mono (s : FleetState) (g q : Nat)
    (h : (cleanup_worker s g).1.alive q = true) : s.alive q = true := by
  unfold cleanup_worker at h
  dsimp only at h
  exact killIfAlive_alive_mono _ _ _
    (killIfAlive_alive_mono _ _ _ (killIfAlive_alive_mono _ _ _ h))

theorem start_worker_gpus (s : FleetState) (g fresh : Nat) :
    (start_worker s g fresh).1.gpus = s.gpus := rfl

theorem start_worker_shutdownMachine (s : FleetState) (g fresh : Nat) :
    (start_worker s g fresh).1.shutdownMachine = s.shutdownMachine := rfl

theorem start_worker_flagContent (s : FleetState) (g fresh : Nat) :
    (start_worker s g fresh).1.flagContent = s.flagContent := rfl

theorem start_worker_flagPresent (s : FleetState) (g fresh : Nat) :
    (start_worker s g fresh).1.flagPresent = s.flagPresent := rfl

theorem start_worker_comfyuiPids (s : FleetState) (g fresh x : Nat) :
    (start_worker s g fresh).1.comfyuiPids x =
      if x = g then some fresh else s.comfyuiPids x := rfl

theorem start_worker_workerPids (s : FleetState) (g fresh x : Nat) :
    (start_worker s g fresh).1.workerPids x =
      if x = g then some (fresh + 2) else s.workerPids x := rfl

theorem start_worker_cloudflaredPids (s : FleetState) (g fresh x : Nat) :
    (start_worker s g fresh).1.cloudflaredPids x =
      if x = g then some (fresh + 1) else s.cloudflaredPids x := rfl

theorem start_worker_logPresent (s : FleetState) (g fresh x : Nat) :
    (start_worker s g fresh).1.logPresent x =
      if x = g then true else s.logPresent x := rfl

theorem start_worker_alive (s : FleetState) (g fresh q : Nat) :
    (start_worker s g fresh).1.alive q =
      if q = fresh ∨ q = fresh + 1 ∨ q = fresh + 2 then true
      else s.alive q := rfl

theorem start_worker_fresh (s : FleetState) (g fresh : Nat) :
    (start_worker s g fresh).2 = fresh + 3 := rfl

theorem start_worker_alive_of_lt (s : FleetState) (g fresh q : Nat)
    (hq : q < fresh) :
    (start_worker s g fresh).1.alive q = s.alive q := by
  rw [start_worker_alive, if_neg]
  omega

/-! Frame lemmas for `restartUnit` (one cleanup-then-start cycle) -/

theorem restartUnit_gpus (s : FleetState) (g fresh : Nat) :
    (restartUnit s g fresh).1.gpus = s.gpus := by
  unfold restartUnit
  simp [start_worker_gpus, cleanup_worker_gpus]

theorem restartUnit_shutdownMachine (s : FleetState) (g fresh : Nat) :
    (restartUnit s g fresh).1.shutdownMachine = s.shutdownMachine := by
  unfold restartUnit
  simp [start_worker_shutdownMachine, cleanup_worker_shutdownMachine]

theorem restartUnit_flagContent (s : FleetState) (g fresh : Nat) :
    (restartUnit s g fresh).1.flagContent = s.flagContent := by
  unfold restartUnit
  simp [start_worker_flagContent, cleanup_worker_flagContent]

theorem restartUnit_fresh (s : FleetState) (g fresh : Nat) :
    (restartUnit s g fresh).2.1 = fresh + 3 := rfl

theorem restartUnit_comfyuiPids_ne (s : FleetState) (g fresh x : Nat)
    (hx : x ≠ g) :
    (restartUnit s g fresh).1.comfyuiPids x = s.comfyuiPids x := by
  unfold restartUnit
  simp [start_worker_comfyuiPids, cleanup_worker_comfyuiPids, hx]

theorem restartUnit_workerPids_ne (s : FleetState) (g fresh x : Nat)
    (hx : x ≠ g) :
    (restartUnit s g fresh).1.workerPids x = s.workerPids x := by
  unfold restartUnit
  simp [start_worker_workerPids, cleanup_worker_workerPids, hx]

theorem restartUnit_cloudflaredPids_ne (s : FleetState) (g fresh x : Nat)
    (hx : x ≠ g) :
    (restartUnit s g fresh).1.cloudflaredPids x = s.cloudflaredPids x := by
  unfold restartUnit
  simp [start_worker_cloudflaredPids, cleanup_worker_cloudflaredPids, hx]

theorem restartUnit_flagPresent_ne (s : FleetState) (g fresh x : Nat)
    (hx : x ≠ g) :
    (restartUnit s g fresh).1.flagPresent x = s.flagPresent x := by
  unfold restartUnit
  simp [start_worker_flagPresent, cleanup_worker_flagPresent, hx]

theorem restartUnit_logPresent_ne (s : FleetState) (g fresh x : Nat)
    (hx : x ≠ g) :
    (restartUnit s g fresh).1.logPresent x = s.logPresent x := by
  unfold restartUnit
  simp [start_worker_logPresent, cleanup_worker_logPresent, hx]

theorem restartUnit_recordedPids_ne (s : FleetState) (g fresh x : Nat)
    (hx : x ≠ g) :
    recordedPids (restartUnit s g fresh).1 x = recordedPids s x := by
  unfold recordedPids
  rw [restartUnit_comfyuiPids_ne s g fresh x hx,
    restartUnit_workerPids_ne s g fresh x hx,
    restartUnit_cloudflaredPids_ne s g fresh x hx]

theorem restartUnit_comfyuiPids_eq (s : FleetState) (g fresh : Nat) :
    (restartUnit s g fresh).1.comfyuiPids g = some fresh := by
  unfold restartUnit
  simp [start_worker_comfyuiPids]

theorem restartUnit_workerPids_eq (s : FleetState) (g fresh : Nat) :
    (restartUnit s g fresh).1.workerPids g = some (fresh + 2) := by
  unfold restartUnit
  simp [start_worker_workerPids]

theorem restartUnit_cloudflaredPids_eq (s : FleetState) (g fresh : Nat) :
    (restartUnit s g fresh).1.cloudflaredPids g = some (fresh + 1) := by
  unfold restartUnit
  simp [start_worker_cloudflaredPids]

theorem restartUnit_flagPresent_eq (s : FleetState) (g fresh : Nat) :
    (restartUnit s g fresh).1.flagPresent g = false := by
  unfold restartUnit
  simp [start_worker_flagPresent, cleanup_worker_flagPresent]

theorem restartUnit_logPresent_eq (s : FleetState) (g fresh : Nat) :
    (restartUnit s g fresh).1.logPresent g = true := by
  unfold restartUnit
  simp [start_worker_logPresent]

theorem restartUnit_killed_sub (s : FleetState) (g fresh : Nat) :
    ∀ p ∈ (restartUnit s g fresh).2.2, p ∈ recordedPids s g := by
  intro p hp
  exact cleanup_worker_killed_sub s g p hp

theorem restartUnit_alive_of_not_recorded (s : FleetState) (g fresh q : Nat)
    (hq : q ∉ recordedPids s g) (hlt : q < fresh) :
    (restartUnit s g fresh).1.alive q = s.alive q := by
  unfold restartUnit
  dsimp only
  rw [start_worker_alive_of_lt _ _ _ _ hlt]
  exact cleanup_worker_alive_of_not_recorded s g q hq

/-- The monitor loop's per-slot death test holds exactly when some
recorded PID of the slot fails the liveness probe. -/
theorem died_iff_exists (s : FleetState) (g : Nat) :
    died s g = true ↔ ∃ p ∈ recordedPids s g, s.alive p = false := by
  unfold died recordedPids
  cases hc : s.comfyuiPids g <;> cases hw : s.workerPids g <;>
    cases hf : s.cloudflaredPids g <;> (simp [Bool.not_eq_true']; try tauto)

theorem died_congr (s s' : FleetState) (g : Nat)
    (hc : s'.comfyuiPids g = s.comfyuiPids g)
    (hw : s'.workerPids g = s.workerPids g)
    (hf : s'.cloudflaredPids g = s.cloudflaredPids g)
    (ha : ∀ p ∈ recordedPids s g, s'.alive p = s.alive p) :
    died s' g = died s g := by
  have hrec : recordedPids s' g = recordedPids s g := by
    unfold recordedPids
    rw [hc, hw, hf]
  rw [Bool.eq_iff_iff, died_iff_exists, died_iff_exists, hrec]
  constructor
  · rintro ⟨p, hp, hpa⟩
    exact ⟨p, hp, by rw [← ha p hp]; exact hpa⟩
  · rintro ⟨p, hp, hpa⟩
    exact ⟨p, hp, by rw [ha p hp]; exact hpa⟩

/-- Restarting another slot `g'` does not change whether slot `g`'s
processes count as dead, provided the two slots record disjoint PIDs and
slot `g`'s PIDs are below the fresh-PID counter. -/
theorem died_restartUnit_other (s : FleetState) (g g' fresh : Nat)
    (hne : g ≠ g')
    (hbound : ∀ p ∈ recordedPids s g, p < fresh)
    (hdisj : ∀ p, p ∈ recordedPids s g → p ∉ recordedPids s g') :
    died (restartUnit s g' fresh).1 g = died s g := by
  apply died_congr
  · exact restartUnit_comfyuiPids_ne s g' fresh g hne
  · exact restartUnit_workerPids_ne s g' fresh g hne
  · exact restartUnit_cloudflaredPids_ne s g' fresh g hne
  · intro p hp
    exact restartUnit_alive_of_not_recorded s g' fresh p (hdisj p hp)
      (hbound p hp)

/-- Full specification of the monitor loop's death-check pass over a
slot list `l` (a `foldl` of `restartStep`), under OS well-formedness of
the PIDs: the restarted slots are exactly those whose death test held
at the start of the pass; the fresh-PID counter only grows; `gpus` and
the configuration are untouched; slots outside `l` are untouched; a
dead slot ends up relaunched (fresh consecutive PID triple, idle flag
deleted, log recreated); a live slot is untouched. -/
theorem restart_foldl_spec (l : List Nat) (s : FleetState) (f : Nat)
    (r : List Nat)
    (hnd : l.Nodup)
    (hb : ∀ g ∈ l, ∀ p ∈ recordedPids s g, p < f)
    (hd : ∀ g ∈ l, ∀ g' ∈ l, g ≠ g' →
      ∀ p, p ∈ recordedPids s g → p ∉ recordedPids s g') :
    (l.foldl restartStep (s, f, r)).2.2 =
      r ++ l.filter (fun g => died s g) ∧
    f ≤ (l.foldl restartStep (s, f, r)).2.1 ∧
    (l.foldl restartStep (s, f, r)).1.gpus = s.gpus ∧
    (l.foldl restartStep (s, f, r)).1.shutdownMachine =
      s.shutdownMachine ∧
    (∀ x, x ∉ l →
      (l.foldl restartStep (s, f, r)).1.comfyuiPids x = s.comfyuiPids x ∧
      (l.foldl restartStep (s, f, r)).1.workerPids x = s.workerPids x ∧
      (l.foldl restartStep (s, f, r)).1.cloudflaredPids x =
        s.cloudflaredPids x ∧
      (l.foldl restartStep (s, f, r)).1.flagPresent x = s.flagPresent x ∧
      (l.foldl restartStep (s, f, r)).1.logPresent x = s.logPresent x) ∧
    (∀ g ∈ l, died s g = true →
      (∃ q, f ≤ q ∧
        (l.foldl restartStep (s, f, r)).1.comfyuiPids g = some q ∧
        (l.foldl restartStep (s, f, r)).1.cloudflaredPids g =
          some (q + 1) ∧
        (l.foldl restartStep (s, f, r)).1.workerPids g = some (q + 2)) ∧
      (l.foldl restartStep (s, f, r)).1.flagPresent g = false ∧
      (l.foldl restartStep (s, f, r)).1.logPresent g = true) ∧
    (∀ g ∈ l, died s g = false →
      (l.foldl restartStep (s, f, r)).1.comfyuiPids g = s.comfyuiPids g ∧
      (l.foldl restartStep (s, f, r)).1.workerPids g = s.workerPids g ∧
      (l.foldl restartStep (s, f, r)).1.cloudflaredPids g =
        s.cloudflaredPids g ∧
      (l.foldl restartStep (s, f, r)).1.flagPresent g = s.flagPresent g ∧
      (l.foldl restartStep (s, f, r)).1.logPresent g = s.logPresent g) := by
  induction l generalizing s f r with
  | nil => simp
  | cons h t ih =>
    have hht : h ∉ t := (List.nodup_cons.mp hnd).1
    have hndt : t.Nodup := (List.nodup_cons.mp hnd).2
    by_cases hdh : died s h = true
    · -- the head slot is dead: it is cleaned up and restarted
      have hstep : restartStep (s, f, r) h =
          ((restartUnit s h f).1, f + 3, r ++ [h]) := by
        unfold restartStep
        simp [hdh, restartUnit_fresh]
      set s1 := (restartUnit s h f).1 with hs1
      -- recorded PIDs of the tail slots are untouched by the restart
      have hrec1 : ∀ g ∈ t, recordedPids s1 g = recordedPids s g := by
        intro g hg
        exact restartUnit_recordedPids_ne s h f g
          (fun hgh => hht (hgh ▸ hg))
      have hb1 : ∀ g ∈ t, ∀ p ∈ recordedPids s1 g, p < f + 3 := by
        intro g hg p hp
        rw [hrec1 g hg] at hp
        have := hb g (List.mem_cons_of_mem h hg) p hp
        omega
      have hd1 : ∀ g ∈ t, ∀ g' ∈ t, g ≠ g' →
          ∀ p, p ∈ recordedPids s1 g → p ∉ recordedPids s1 g' := by
        intro g hg g' hg' hne p hp
        rw [hrec1 g hg] at hp
        rw [hrec1 g' hg']
        exact hd g (List.mem_cons_of_mem h hg) g'
          (List.mem_cons_of_mem h hg') hne p hp
      -- the death test of the tail slots is unchanged by the restart
      have hdied1 : ∀ g ∈ t, died s1 g = died s g := by
        intro g hg
        have hgh : g ≠ h := fun hgh => hht (hgh ▸ hg)
        exact died_restartUnit_other s g h f hgh
          (hb g (List.mem_cons_of_mem h hg))
          (fun p hp => hd g (List.mem_cons_of_mem h hg) h
            (List.mem_cons_self h t) hgh p hp)
      obtain ⟨ih1, ih2, ih3, ih4, ih5, ih6, ih7⟩ :=
        ih hndt hb1 hd1 (s := s1) (f := f + 3) (r := r ++ [h])
      rw [List.foldl_cons, hstep]
      refine ⟨?_, ?_, ?_, ?_, ?_, ?_, ?_⟩
      · rw [ih1, List.filter_cons_of_pos (by simpa using hdh)]
        have : t.filter (fun g => died s1 g) =
            t.filter (fun g => died s g) :=
          List.filter_congr (fun g hg => by rw [hdied1 g hg])
        rw [this]
        simp
      · omega
      · rw [ih3, hs1, restartUnit_gpus]
      · rw [ih4, hs1, restartUnit_shutdownMachine]
      · intro x hx
        have hxh : x ≠ h := fun hxh => hx (by rw [hxh]; exact List.mem_cons_self h t)
        have hxt : x ∉ t := fun hxt => hx (List.mem_cons_of_mem h hxt)
        obtain ⟨e1, e2, e3, e4, e5⟩ := ih5 x hxt
        exact ⟨e1.trans (restartUnit_comfyuiPids_ne s h f x hxh),
          e2.trans (restartUnit_workerPids_ne s h f x hxh),
          e3.trans (restartUnit_cloudflaredPids_ne s h f x hxh),
          e4.trans (restartUnit_flagPresent_ne s h f x hxh),
          e5.trans (restartUnit_logPresent_ne s h f x hxh)⟩
      · intro g hg hdg
        rcases List.mem_cons.mp hg with hgh | hgt
        · subst hgh
          obtain ⟨e1, e2, e3, e4, e5⟩ := ih5 g hht
          refine ⟨⟨f, le_refl f, ?_, ?_, ?_⟩, ?_, ?_⟩
          · rw [e1, hs1, restartUnit_comfyuiPids_eq]
          · rw [e3, hs1, restartUnit_cloudflaredPids_eq]
          · rw [e2, hs1, restartUnit_workerPids_eq]
          · rw [e4, hs1, restartUnit_flagPresent_eq]
          · rw [e5, hs1, restartUnit_logPresent_eq]
        · obtain ⟨⟨q, hq1, hq2, hq3, hq4⟩, hq5, hq6⟩ :=
            ih6 g hgt (by rw [hdied1 g hgt]; exact hdg)
          exact ⟨⟨q, by omega, hq2, hq3, hq4⟩, hq5, hq6⟩
      · intro g hg hdg
        rcases List.mem_cons.mp hg with hgh | hgt
        · subst hgh
          exact absurd hdg (by simp [hdh])
        · have hgh : g ≠ h := fun hgh => hht (hgh ▸ hgt)
          obtain ⟨e1, e2, e3, e4, e5⟩ :=
            ih7 g hgt (by rw [hdied1 g hgt]; exact hdg)
          exact ⟨e1.trans (restartUnit_comfyuiPids_ne s h f g hgh),
            e2.trans (restartUnit_workerPids_ne s h f g hgh),
            e3.trans (restartUnit_cloudflaredPids_ne s h f g hgh),
            e4.trans (restartUnit_flagPresent_ne s h f g hgh),
            e5.trans (restartUnit_logPresent_ne s h f g hgh)⟩
    · -- the head slot is healthy: the step is a no-op
      have hdh' : died s h = false := by
        cases hx : died s h
        · rfl
        · exact absurd hx hdh
      have hstep : restartStep (s, f, r) h = (s, f, r) := by
        unfold restartStep
        simp [hdh']
      have hb1 : ∀ g ∈ t, ∀ p ∈ recordedPids s g, p < f :=
        fun g hg => hb g (List.mem_cons_of_mem h hg)
      have hd1 : ∀ g ∈ t, ∀ g' ∈ t, g ≠ g' →
          ∀ p, p ∈ recordedPids s g → p ∉ recordedPids s g' :=
        fun g hg g' hg' => hd g (List.mem_cons_of_mem h hg) g'
          (List.mem_cons_of_mem h hg')
      obtain ⟨ih1, ih2, ih3, ih4, ih5, ih6, ih7⟩ :=
        ih hndt hb1 hd1 (s := s) (f := f) (r := r)
      rw [List.foldl_cons, hstep]
      refine ⟨?_, ih2, ih3, ih4, ?_, ?_, ?_⟩
      · rw [ih1, List.filter_cons_of_neg (by simp [hdh'])]
      · intro x hx
        exact ih5 x (fun hxt => hx (List.mem_cons_of_mem h hxt))
      · intro g hg hdg
        rcases List.mem_cons.mp hg with hgh | hgt
        · subst hgh
          exact absurd hdg (by simp [hdh'])
        · exact ih6 g hgt hdg
      · intro g hg hdg
        rcases List.mem_cons.mp hg with hgh | hgt
        · subst hgh
          exact ih5 g hht
        · exact ih7 g hgt hdg

/-! Preservation lemmas that need no well-formedness hypotheses -/

theorem restartStep_gpus (acc : FleetState × Nat × List Nat) (g : Nat) :
    (restartStep acc g).1.gpus = acc.1.gpus := by
  unfold restartStep
  split
  · exact restartUnit_gpus acc.1 g acc.2.1
  · rfl

theorem restartStep_shutdownMachine (acc : FleetState × Nat × List Nat)
    (g : Nat) :
    (restartStep acc g).1.shutdownMachine = acc.1.shutdownMachine := by
  unfold restartStep
  split
  · exact restartUnit_shutdownMachine acc.1 g acc.2.1
  · rfl

theorem restartStep_workerPids_isSome
    (acc : FleetState × Nat × List Nat) (g x : Nat)
    (h : (acc.1.workerPids x).isSome) :
    ((restartStep acc g).1.workerPids x).isSome := by
  unfold restartStep
  split
  · by_cases hxg : x = g
    · subst hxg
      rw [restartUnit_workerPids_eq]
      rfl
    · rw [restartUnit_workerPids_ne _ _ _ _ hxg]
      exact h
  · exact h

theorem foldl_restartStep_gpus (l : List Nat)
    (acc : FleetState × Nat × List Nat) :
    ((l.foldl restartStep acc).1).gpus = acc.1.gpus := by
  induction l generalizing acc with
  | nil => rfl
  | cons h t ih => rw [List.foldl_cons, ih, restartStep_gpus]

theorem foldl_restartStep_shutdownMachine (l : List Nat)
    (acc : FleetState × Nat × List Nat) :
    ((l.foldl restartStep acc).1).shutdownMachine =
      acc.1.shutdownMachine := by
  induction l generalizing acc with
  | nil => rfl
  | cons h t ih => rw [List.foldl_cons, ih, restartStep_shutdownMachine]

theorem foldl_restartStep_workerPids_isSome (l : List Nat)
    (acc : FleetState × Nat × List Nat) (x : Nat)
    (h : (acc.1.workerPids x).isSome) :
    (((l.foldl restartStep acc).1).workerPids x).isSome := by
  induction l generalizing acc with
  | nil => exact h
  | cons hd t ih =>
    rw [List.foldl_cons]
    exact ih _ (restartStep_workerPids_isSome acc hd x h)

theorem startFold_workerPids_isSome_mono (l : List Nat)
    (acc : FleetState × Nat) (x : Nat)
    (h : (acc.1.workerPids x).isSome) :
    (((l.foldl (fun acc g => start_worker acc.1 g acc.2) acc).1).workerPids
      x).isSome := by
  induction l generalizing acc with
  | nil => exact h
  | cons hd t ih =>
    rw [List.foldl_cons]
    apply ih
    rw [start_worker_workerPids]
    by_cases hx : x = hd
    · rw [if_pos hx]
      rfl
    · rw [if_neg hx]
      exact h

theorem startFold_workerPids_isSome_of_mem (l : List Nat)
    (acc : FleetState × Nat) (g : Nat) (hg : g ∈ l) :
    (((l.foldl (fun acc g => start_worker acc.1 g acc.2) acc).1).workerPids
      g).isSome := by
  induction l generalizing acc with
  | nil => cases hg
  | cons hd t ih =>
    rw [List.foldl_cons]
    rcases List.mem_cons.mp hg with hghd | hgt
    · subst hghd
      apply startFold_workerPids_isSome_mono
      rw [start_worker_workerPids, if_pos rfl]
      rfl
    · exact ih _ hgt

theorem startFold_gpus (l : List Nat) (acc : FleetState × Nat) :
    ((l.foldl (fun acc g => start_worker acc.1 g acc.2) acc).1).gpus =
      acc.1.gpus := by
  induction l generalizing acc with
  | nil => rfl
  | cons hd t ih => rw [List.foldl_cons, ih, start_worker_gpus]

/-- After the initial launch loop, every configured slot has a recorded
worker PID entry. -/
theorem startAllWorkers_allRecorded (s : FleetState) (fresh : Nat) :
    AllWorkersRecorded (startAllWorkers s fresh).1 := by
  intro g hg
  unfold startAllWorkers at hg ⊢
  rw [startFold_gpus] at hg
  exact startFold_workerPids_isSome_of_mem s.gpus (s, fresh) g hg

/-- An all-recorded fleet has as many active units as configured
slots. -/
theorem activeUnits_eq_of_allRecorded (s : FleetState)
    (h : AllWorkersRecorded s) : activeUnits s = s.gpus.length := by
  unfold activeUnits
  rw [List.filter_eq_self.mpr]
  intro g hg
  exact h g hg

/-! Claim theorems -/

/-- C1: the Idle Coordinator (`check_worker_shutdown_flags`) triggers a
shutdown decision if and only if the number of active units (units with
a recorded worker PID entry) is positive and the number of active units
whose idle-signal file exists equals the number of active units; when
flag files exist for only a strict subset of the active units, no
decision is emitted — and since every process-termination action of the
function sits inside its decision branch, no process is terminated. -/
theorem C1_idle_decision_iff (s : FleetState) :
    ((check_worker_shutdown_flags s).isSome ↔
      0 < activeUnits s ∧ flaggedActiveUnits s = activeUnits s) ∧
    (flaggedActiveUnits s < activeUnits s →
      check_worker_shutdown_flags s = none) := by
  simp only [check_worker_shutdown_flags, countActiveAndFlagged_eq]
  constructor
  · by_cases h : 0 < activeUnits s ∧ flaggedActiveUnits s = activeUnits s
    · simp [h]
    · simp [h]
  · intro hlt
    rw [if_neg (by omega)]

/-- Witness for C1 at a concrete fleet: two recorded workers, only one
flagged (a strict subset), so no shutdown decision is made. -/
theorem C1_idle_decision_iff_witness :
    flaggedActiveUnits twoSlotOneDead < activeUnits twoSlotOneDead ∧
    check_worker_shutdown_flags twoSlotOneDead = none :=
  ⟨by decide, (C1_idle_decision_iff twoSlotOneDead).2 (by decide)⟩

/-- C2: the registration-watchdog block of the script sits after the
`while true` monitor loop; since that loop's condition is the literal
`true` and its only exits terminate the whole script, control never
reaches the watchdog spawn — for every sequence of loop-iteration
outcomes and every number of iterations, the program counter never
reaches the position after the monitor loop.  The watchdog therefore
never runs, contradicting the claim that it polls concurrently and
fires after the grace window. -/
theorem C2_watchdog_spawn_unreachable (exits : Nat → Bool) (n : Nat) :
    runSupervisorTail exits n ≠ TailPC.afterMonitorLoop := by
  induction n with
  | zero => simp [runSupervisorTail]
  | succ n ih =>
    rw [runSupervisorTail]
    cases h : runSupervisorTail exits n with
    | monitorLoop => cases hx : exits n <;> simp [supervisorTailStep, hx]
    | afterMonitorLoop => exact absurd h ih
    | scriptExited => simp [supervisorTailStep]

/-- C3 counterexample: a fleet-idle state whose single unit's
idle-signal file carries the machine-shutdown payload, while the
supervisor runs without `--shutdown_machine`.  The claim says the
instance-termination path is taken; the code takes the local-only path,
because `check_worker_shutdown_flags` never reads the file's contents
and branches on the configuration flag instead. -/
theorem C3_payload_ignored_counterexample :
    oneSlotMachineFlagged.flagContent 0 = "SHUTDOWN_MACHINE" ∧
    oneSlotMachineFlagged.flagPresent 0 = true ∧
    check_worker_shutdown_flags oneSlotMachineFlagged =
      some ShutdownPath.terminateLocal ∧
    check_worker_shutdown_flags oneSlotMachineFlagged ≠
      some ShutdownPath.terminateInstance := by
  refine ⟨by decide, by decide, by decide, by decide⟩

/-- C3 amended: on fleet-idle detection the call path is decided by the
supervisor's `--shutdown_machine` configuration, not by the idle-signal
files' contents — the decision is invariant under any change of the
flag files' contents, and whenever a decision is made it is
instance-termination exactly when `--shutdown_machine` was given. -/
theorem C3_config_decides_path (s : FleetState)
    (content : Nat → String) :
    check_worker_shutdown_flags { s with flagContent := content } =
      check_worker_shutdown_flags s ∧
    ((check_worker_shutdown_flags s).isSome →
      check_worker_shutdown_flags s =
        some (if s.shutdownMachine then ShutdownPath.terminateInstance
          else ShutdownPath.terminateLocal)) := by
  constructor
  · rfl
  · intro h
    simp only [check_worker_shutdown_flags] at h ⊢
    by_cases hc : 0 < (countActiveAndFlagged s).1 ∧
        (countActiveAndFlagged s).2 = (countActiveAndFlagged s).1
    · rw [if_pos hc]
    · rw [if_neg hc] at h
      exact absurd h (by simp)

/-- Witness for C3's amended theorem at the concrete fleet-idle state:
the decision exists and is the local path (configuration flag off). -/
theorem C3_config_decides_path_witness :
    check_worker_shutdown_flags
        { oneSlotMachineFlagged with flagContent := fun _ => "other" } =
      check_worker_shutdown_flags oneSlotMachineFlagged ∧
    check_worker_shutdown_flags oneSlotMachineFlagged =
      some (if oneSlotMachineFlagged.shutdownMachine then
        ShutdownPath.terminateInstance else ShutdownPath.terminateLocal) :=
  ⟨(C3_config_decides_path oneSlotMachineFlagged (fun _ => "other")).1,
   (C3_config_decides_path oneSlotMachineFlagged
     (fun _ => "other")).2 (by decide)⟩

/-- C9: whenever the instance-termination path runs, a failed AWS
termination call — or an unavailable instance identity — falls back to
an unconditional local power-off (`sudo shutdown -h now`); with a
nonempty identity and a successful call, only the AWS call happens; and
among all the script's external calls, the AWS termination call is the
only one whose failure is handled by a substitute recovery action
rather than a retry or a default value. -/
theorem C9_termination_failure_fallback (instanceId : String)
    (awsOk : Bool) :
    ((instanceId = "" ∨ awsOk = false) →
      TermAction.localPoweroff ∈ terminate_ec2_instance instanceId awsOk) ∧
    (instanceId ≠ "" → awsOk = true →
      terminate_ec2_instance instanceId awsOk =
        [TermAction.awsTerminate]) ∧
    (∀ c, onFailure c = FailureHandling.fallbackPoweroff ↔
      c = ExternalCall.awsTerminateCall) := by
  refine ⟨?_, ?_, ?_⟩
  · rintro (h | h)
    · simp [terminate_ec2_instance, h]
    · subst h
      unfold terminate_ec2_instance
      by_cases hid : instanceId = "" <;> simp [hid]
  · intro h1 h2
    subst h2
    simp [terminate_ec2_instance, h1]
  · intro c
    cases c <;> decide

/-- Witness for C9: a failed AWS call with a nonempty instance id falls
back to the local power-off. -/
theorem C9_termination_failure_fallback_witness :
    TermAction.localPoweroff ∈ terminate_ec2_instance ("i-0abc") false :=
  (C9_termination_failure_fallback ("i-0abc") false).1 (Or.inr rfl)

/-- C8 counterexample: requesting GPU 5 on a machine with a single GPU
is a "requested resources unavailable" configuration error, yet startup
does not fail — the unavailable id is dropped with a warning, the list
falls back to GPU 0, and a unit is launched.  This refutes the claim
that unavailable resources are fatal at startup. -/
theorem C8_unavailable_gpu_not_fatal :
    startupConfig ["--gpus", "5"] 1 =
      Except.ok { gpus := [0], shutdownMachine := false,
                  idleTimeout := 300 } ∧
    launchedSlots ["--gpus", "5"] 1 = [0] := by
  constructor
  · rfl
  · rfl

/-- C8 amended: an invalid idle-timeout (non-numeric or below 60) and
an invalid slot list (empty value or a non-numeric GPU id) are fatal
during argument parsing, before any unit is launched (a failed parse
launches nothing); GPU availability validation, by contrast, never
fails — it always yields a nonempty slot list. -/
theorem C8_config_errors_fatal_before_launch (rest : List String)
    (c : Config) (t v : String) (args : List String) (total : Nat) :
    (isNumeric t = false ∨ strToNat t < 60 →
      parseArgs ("--idle_timeout" :: t :: rest) c =
        .error ("Error: idle_timeout must be a number >= 60 seconds")) ∧
    (v ≠ "" → (splitGpuList v).all isNumeric = false →
      parseArgs ("--gpus" :: v :: rest) c =
        .error ("Error: GPU ID is not a valid number")) ∧
    (∀ e, startupConfig args total = .error e →
      launchedSlots args total = []) ∧
    (∀ gl, validateGpus gl total ≠ []) := by
  refine ⟨?_, ?_, ?_, ?_⟩
  · intro h
    have hcond : (isNumeric t && decide (60 ≤ strToNat t)) = false := by
      rcases h with h | h
      · simp [h]
      · have : decide (60 ≤ strToNat t) = false :=
          decide_eq_false (by omega)
        simp [this]
    simp [parseArgs, hcond]
  · intro hv hnum
    simp [parseArgs, hv, hnum]
  · intro e he
    unfold launchedSlots
    rw [he]
  · intro gl
    unfold validateGpus
    by_cases hemp : (gl.filter (fun g => g < total)).isEmpty
    · simp [hemp]
    · simp only [hemp, if_neg, Bool.false_eq_true, not_false_iff]
      intro hcontra
      rw [hcontra] at hemp
      exact hemp rfl

/-- Witness for C8's amended theorem: a below-minimum idle-timeout and
a non-numeric GPU id are rejected, and a failed parse launches no
unit. -/
theorem C8_config_errors_fatal_before_launch_witness :
    parseArgs ["--idle_timeout", "30"]
        { gpus := [0], shutdownMachine := false, idleTimeout := 300 } =
      .error ("Error: idle_timeout must be a number >= 60 seconds") ∧
    parseArgs ["--gpus", "a,1"]
        { gpus := [0], shutdownMachine := false, idleTimeout := 300 } =
      .error ("Error: GPU ID is not a valid number") ∧
    launchedSlots ["--idle_timeout", "30"] 1 = [] :=
  ⟨(C8_config_errors_fatal_before_launch [] _ "30" "x" [] 1).1
      (Or.inr (by decide)),
   (C8_config_errors_fatal_before_launch [] _ "x" "a,1" [] 1).2.1
      (by decide) (by decide),
   (C8_config_errors_fatal_before_launch []
      { gpus := [0], shutdownMachine := false, idleTimeout := 300 }
      "x" "x" ["--idle_timeout", "30"] 1).2.2.1
      ("Error: idle_timeout must be a number >= 60 seconds") (by rfl)⟩

/-- C6: one `start_worker` run spawns, in strict order, the ComfyUI
backend first, then — after backend probes that continue up to the
first success (the blocking wait with unbounded retries) — the
cloudflared tunnel, then the job worker last; the tunnel-URL poll makes
at most 30 attempts; and when no URL appears within those attempts the
worker is still spawned, with the empty tunnel URL. -/
theorem C6_launch_order_and_degradation (ready : Nat → Bool)
    (h : ∃ n, ready n = true) (logUrl : Nat → Option String) :
    ∃ probes polls,
      startWorkerTrace ready h logUrl =
        [StartEvent.spawnComfyui] ++ probes ++
          [StartEvent.spawnCloudflared] ++ polls ++
          [StartEvent.spawnWorker (tunnelUrlAfterPoll logUrl)] ∧
      (∀ e ∈ probes, ∃ b, e = StartEvent.backendProbe b) ∧
      probes.getLast? = some (StartEvent.backendProbe true) ∧
      (∀ e ∈ polls, ∃ u, e = StartEvent.tunnelPoll u) ∧
      polls.length ≤ 30 ∧
      ((∀ m, m < 30 → logUrl m = none) →
        tunnelUrlAfterPoll logUrl = "") := by
  refine ⟨(List.range (Nat.find h + 1)).map
      (fun n => StartEvent.backendProbe (ready n)),
    ((tunnelPollAttempts logUrl).map
      (fun n => StartEvent.tunnelPoll (logUrl n))) ++
      (match (List.range 30).findSome? logUrl with
       | some u => [StartEvent.tunnelPoll (some u)]
       | none => []), ?_, ?_, ?_, ?_, ?_, ?_⟩
  · unfold startWorkerTrace
    simp [List.append_assoc]
  · intro e he
    obtain ⟨n, _, hn⟩ := List.mem_map.mp he
    exact ⟨ready n, hn.symm⟩
  · rw [List.range_succ, List.map_append, List.getLast?_append]
    simp [Nat.find_spec h]
  · intro e he
    rcases List.mem_append.mp he with he | he
    · obtain ⟨n, _, hn⟩ := List.mem_map.mp he
      exact ⟨logUrl n, hn.symm⟩
    · revert he
      cases hfind : (List.range 30).findSome? logUrl with
      | none => intro he; cases he
      | some u =>
        intro he
        rw [List.mem_singleton.mp he]
        exact ⟨some u, rfl⟩
  · have htw : (tunnelPollAttempts logUrl).length ≤ 30 := by
      unfold tunnelPollAttempts
      calc ((List.range 30).takeWhile
            (fun n => (logUrl n).isNone)).length
          ≤ (List.range 30).length := (List.takeWhile_prefix _).length_le
        _ = 30 := List.length_range 30
    cases hfind : (List.range 30).findSome? logUrl with
    | none => simpa using htw
    | some u =>
      have hlt : (tunnelPollAttempts logUrl).length < 30 := by
        rcases Nat.lt_or_ge (tunnelPollAttempts logUrl).length 30 with
          hl | hge
        · exact hl
        · exfalso
          have heq : (tunnelPollAttempts logUrl).length =
              (List.range 30).length := by
            rw [List.length_range]
            omega
          have hself : tunnelPollAttempts logUrl = List.range 30 :=
            (List.takeWhile_prefix _).eq_of_length heq
          have hall : ∀ x ∈ List.range 30,
              (fun n => (logUrl n).isNone) x = true := by
            intro x hx
            rw [← hself] at hx
            unfold tunnelPollAttempts at hx
            have h2 := List.mem_takeWhile_imp hx
            exact h2
          have : (List.range 30).findSome? logUrl = none := by
            rw [List.findSome?_eq_none_iff]
            intro x hx
            simpa using hall x hx
          rw [this] at hfind
          cases hfind
      simp only [List.length_append, List.length_map,
        List.length_singleton]
      omega
  · intro hnone
    unfold tunnelUrlAfterPoll
    have : (List.range 30).findSome? logUrl = none := by
      rw [List.findSome?_eq_none_iff]
      intro x hx
      exact hnone x (List.mem_range.mp hx)
    rw [this]
    rfl

/-- Witness for C6 at a concrete environment: backend ready at the
first probe, no tunnel URL ever appears — the worker is still spawned,
with the empty URL, after at most 30 polls. -/
theorem C6_launch_order_and_degradation_witness :
    ∃ probes polls,
      startWorkerTrace (fun _ => true) ⟨0, rfl⟩ (fun _ => none) =
        [StartEvent.spawnComfyui] ++ probes ++
          [StartEvent.spawnCloudflared] ++ polls ++
          [StartEvent.spawnWorker (tunnelUrlAfterPoll (fun _ => none))] ∧
      (∀ e ∈ probes, ∃ b, e = StartEvent.backendProbe b) ∧
      probes.getLast? = some (StartEvent.backendProbe true) ∧
      (∀ e ∈ polls, ∃ u, e = StartEvent.tunnelPoll u) ∧
      polls.length ≤ 30 ∧
      ((∀ m, m < 30 → (fun _ => none : Nat → Option String) m = none) →
        tunnelUrlAfterPoll (fun _ => none) = "") :=
  C6_launch_order_and_degradation (fun _ => true) ⟨0, rfl⟩ (fun _ => none)

/-- C5: restarting the unit on slot `k` (`cleanup_worker` then
`start_worker`) leaves every other slot `j` untouched: slot `j`'s three
recorded PID entries, its idle-signal file and its log artifact are
unchanged, the liveness of slot `j`'s recorded processes is unchanged
(nothing of slot `j` is terminated), and every PID signalled by the
restart is one of slot `k`'s recorded PIDs. -/
theorem C5_restart_frame (s : FleetState) (j k fresh : Nat)
    (hjk : j ≠ k)
    (hdisj : ∀ p ∈ recordedPids s j, p ∉ recordedPids s k)
    (hbound : ∀ p ∈ recordedPids s j, p < fresh) :
    (restartUnit s k fresh).1.comfyuiPids j = s.comfyuiPids j ∧
    (restartUnit s k fresh).1.workerPids j = s.workerPids j ∧
    (restartUnit s k fresh).1.cloudflaredPids j = s.cloudflaredPids j ∧
    (restartUnit s k fresh).1.flagPresent j = s.flagPresent j ∧
    (restartUnit s k fresh).1.logPresent j = s.logPresent j ∧
    (∀ p ∈ recordedPids s j,
      (restartUnit s k fresh).1.alive p = s.alive p) ∧
    (∀ p ∈ (restartUnit s k fresh).2.2, p ∈ recordedPids s k) :=
  ⟨restartUnit_comfyuiPids_ne s k fresh j hjk,
   restartUnit_workerPids_ne s k fresh j hjk,
   restartUnit_cloudflaredPids_ne s k fresh j hjk,
   restartUnit_flagPresent_ne s k fresh j hjk,
   restartUnit_logPresent_ne s k fresh j hjk,
   fun p hp => restartUnit_alive_of_not_recorded s k fresh p
     (hdisj p hp) (hbound p hp),
   restartUnit_killed_sub s k fresh⟩

/-- Witness for C5: restarting slot 1 of the concrete two-slot fleet
leaves slot 0's entries, files and process liveness unchanged. -/
theorem C5_restart_frame_witness :
    (restartUnit twoSlotOneDead 1 100).1.comfyuiPids 0 =
      twoSlotOneDead.comfyuiPids 0 ∧
    (restartUnit twoSlotOneDead 1 100).1.workerPids 0 =
      twoSlotOneDead.workerPids 0 ∧
    (restartUnit twoSlotOneDead 1 100).1.cloudflaredPids 0 =
      twoSlotOneDead.cloudflaredPids 0 ∧
    (restartUnit twoSlotOneDead 1 100).1.flagPresent 0 =
      twoSlotOneDead.flagPresent 0 ∧
    (restartUnit twoSlotOneDead 1 100).1.logPresent 0 =
      twoSlotOneDead.logPresent 0 ∧
    (∀ p ∈ recordedPids twoSlotOneDead 0,
      (restartUnit twoSlotOneDead 1 100).1.alive p =
        twoSlotOneDead.alive p) ∧
    (∀ p ∈ (restartUnit twoSlotOneDead 1 100).2.2,
      p ∈ recordedPids twoSlotOneDead 1) := by
  have h0 : recordedPids twoSlotOneDead 0 = [10, 11, 12] := rfl
  have h1 : recordedPids twoSlotOneDead 1 = [20, 21, 22] := rfl
  exact C5_restart_frame twoSlotOneDead 0 1 100 (by decide)
    (by rw [h0, h1]; decide) (by rw [h0]; decide)

/-- C7: the monitor loop's per-slot death test reports a slot exactly
when at least one of its recorded PIDs fails the `kill -0` probe (a PID
missing from the process table probes as not alive); the death-check
pass restarts exactly the reported slots; and on a tick where the idle
check made no decision and active workers remain, the tick runs that
pass and continues. -/
theorem C7_health_poll_iff_and_restart (s : FleetState) (fresh : Nat)
    (hnd : s.gpus.Nodup) (hb : PidsBounded s fresh)
    (hdisj : PidsDisjoint s) :
    (∀ g, died s g = true ↔ ∃ p ∈ recordedPids s g, s.alive p = false) ∧
    (restartPass s fresh).2.2 = s.gpus.filter (fun g => died s g) ∧
    (check_worker_shutdown_flags s = none →
      activeUnits (restartPass s fresh).1 ≠ 0 →
      monitorTick s fresh =
        TickResult.running (restartPass s fresh).1
          (restartPass s fresh).2.1
          (s.gpus.filter (fun g => died s g))) := by
  have hspec := restart_foldl_spec s.gpus s fresh [] hnd hb hdisj
  have hlist : (restartPass s fresh).2.2 =
      s.gpus.filter (fun g => died s g) := by
    unfold restartPass
    rw [hspec.1]
    simp
  refine ⟨fun g => died_iff_exists s g, hlist, ?_⟩
  intro hno hact
  simp only [monitorTick, hno]
  rw [if_neg (fun hcon => hact hcon.1), hlist]

/-- Witness for C7: on the concrete two-slot fleet with slot 1's worker
dead, the pass restarts exactly slot 1 and the tick continues. -/
theorem C7_health_poll_iff_and_restart_witness :
    (restartPass twoSlotOneDead 100).2.2 =
      twoSlotOneDead.gpus.filter (fun g => died twoSlotOneDead g) ∧
    monitorTick twoSlotOneDead 100 =
      TickResult.running (restartPass twoSlotOneDead 100).1
        (restartPass twoSlotOneDead 100).2.1
        (twoSlotOneDead.gpus.filter (fun g => died twoSlotOneDead g)) := by
  have h := C7_health_poll_iff_and_restart twoSlotOneDead 100
    (by decide) (by unfold PidsBounded; decide)
    (by unfold PidsDisjoint; decide)
  exact ⟨h.2.1, h.2.2 (by decide) (by decide)⟩

/-- C4 counterexample: a single unit whose three processes are all dead
while its idle-signal file is present.  The claim says this is treated
identically to plain process death, with restart winning over the stale
idle signal.  Instead, `check_worker_shutdown_flags` runs first in the
monitor loop, counts the dead-but-recorded unit as active, sees every
active unit flagged, and exits via the coordinated local shutdown — the
unit is never restarted and the stale idle signal decided the
shutdown. -/
theorem C4_stale_flag_wins_counterexample :
    died oneSlotDeadFlagged 0 = true ∧
    oneSlotDeadFlagged.flagPresent 0 = true ∧
    monitorTick oneSlotDeadFlagged 100 =
      TickResult.exitedIdle ShutdownPath.terminateLocal := by
  refine ⟨by decide, by decide, ?_⟩
  rfl

/-- C4 amended: a unit whose idle-signal file is present while one of
its processes is dead is restarted — with the stale idle file deleted
and a fresh worker PID recorded — only on ticks where the fleet-idle
condition fails; on such a tick the loop proceeds (no shutdown), the
unit is in the restarted list, and its flag file is gone.  (When every
recorded unit is flagged, the idle check, which runs first and counts
recorded entries regardless of liveness, wins instead — see the
counterexample.) -/
theorem C4_restart_when_fleet_not_idle (s : FleetState) (fresh g : Nat)
    (hnd : s.gpus.Nodup) (hb : PidsBounded s fresh)
    (hdisj : PidsDisjoint s) (hg : g ∈ s.gpus)
    (hdead : died s g = true) ( _hflag : s.flagPresent g = true)
    (hno : check_worker_shutdown_flags s = none) :
    g ∈ (restartPass s fresh).2.2 ∧
    (restartPass s fresh).1.flagPresent g = false ∧
    (∃ q, fresh ≤ q ∧
      (restartPass s fresh).1.workerPids g = some (q + 2)) ∧
    monitorTick s fresh =
      TickResult.running (restartPass s fresh).1
        (restartPass s fresh).2.1 (restartPass s fresh).2.2 := by
  have hspec := restart_foldl_spec s.gpus s fresh [] hnd hb hdisj
  obtain ⟨h1, h2, h3, h4, h5, h6, h7⟩ := hspec
  obtain ⟨⟨q, hq1, hq2, hq3, hq4⟩, hq5, hq6⟩ := h6 g hg hdead
  have hmem : g ∈ (restartPass s fresh).2.2 := by
    unfold restartPass
    rw [h1]
    simp only [List.nil_append]
    exact List.mem_filter.mpr ⟨hg, by simp [hdead]⟩
  have hworker : (restartPass s fresh).1.workerPids g = some (q + 2) := by
    unfold restartPass
    exact hq4
  have hact : activeUnits (restartPass s fresh).1 ≠ 0 := by
    unfold activeUnits
    have hgpus : (restartPass s fresh).1.gpus = s.gpus := by
      unfold restartPass
      exact h3
    rw [hgpus]
    have hmem2 : g ∈ s.gpus.filter
        (fun x => ((restartPass s fresh).1.workerPids x).isSome) :=
      List.mem_filter.mpr ⟨hg, by rw [hworker]; rfl⟩
    intro hlen
    rw [List.length_eq_zero] at hlen
    rw [hlen] at hmem2
    cases hmem2
  refine ⟨hmem, ?_, ⟨q, hq1, hworker⟩, ?_⟩
  · unfold restartPass
    exact hq5
  · simp only [monitorTick, hno]
    rw [if_neg (fun hcon => hact hcon.1)]

/-- Witness for C4's amended theorem: on the two-slot fleet whose dead
slot 1 carries a stale idle flag while slot 0 is unflagged, the tick
restarts slot 1, deletes its flag, and continues. -/
theorem C4_restart_when_fleet_not_idle_witness :
    1 ∈ (restartPass twoSlotOneDeadFlagged 100).2.2 ∧
    (restartPass twoSlotOneDeadFlagged 100).1.flagPresent 1 = false ∧
    monitorTick twoSlotOneDeadFlagged 100 =
      TickResult.running (restartPass twoSlotOneDeadFlagged 100).1
        (restartPass twoSlotOneDeadFlagged 100).2.1
        (restartPass twoSlotOneDeadFlagged 100).2.2 := by
  have h := C4_restart_when_fleet_not_idle twoSlotOneDeadFlagged 100 1
    (by decide) (by unfold PidsBounded; decide)
    (by unfold PidsDisjoint; decide) (by decide) (by decide) (by decide)
    (by decide)
  exact ⟨h.1, h.2.1, h.2.2.2⟩

/-- C10: in an all-recorded fleet (every configured slot has a worker
PID entry — established by the initial launch loop and preserved by
every continuing tick, since a restart re-records a worker entry within
the same iteration), the count of active units equals the number of
configured slots, and the monitor loop's no-active-workers
instance-termination branch is never taken. -/
theorem C10_no_active_branch_unreachable (s : FleetState) (fresh : Nat)
    (hall : AllWorkersRecorded s) (hne : s.gpus ≠ []) :
    activeUnits s = s.gpus.length ∧
    monitorTick s fresh ≠ TickResult.exitedNoActive ∧
    (∀ s' f r, monitorTick s fresh = TickResult.running s' f r →
      AllWorkersRecorded s' ∧ s'.gpus = s.gpus) ∧
    (∀ (s0 : FleetState) (f0 : Nat),
      AllWorkersRecorded (startAllWorkers s0 f0).1) := by
  have hgpus : ((restartPass s fresh).1).gpus = s.gpus := by
    unfold restartPass
    exact foldl_restartStep_gpus s.gpus (s, fresh, [])
  have hall' : AllWorkersRecorded (restartPass s fresh).1 := by
    intro g hg
    rw [hgpus] at hg
    unfold restartPass
    exact foldl_restartStep_workerPids_isSome s.gpus (s, fresh, []) g
      (hall g hg)
  have hact : activeUnits (restartPass s fresh).1 ≠ 0 := by
    rw [activeUnits_eq_of_allRecorded _ hall', hgpus]
    intro hlen
    exact hne (List.length_eq_zero.mp hlen)
  refine ⟨activeUnits_eq_of_allRecorded s hall, ?_, ?_, ?_⟩
  · cases hchk : check_worker_shutdown_flags s with
    | some path => simp [monitorTick, hchk]
    | none =>
      simp only [monitorTick, hchk]
      rw [if_neg (fun hcon => hact hcon.1)]
      intro hcontra
      cases hcontra
  · intro s' f r hrun
    cases hchk : check_worker_shutdown_flags s with
    | some path => simp [monitorTick, hchk] at hrun
    | none =>
      simp only [monitorTick, hchk] at hrun
      rw [if_neg (fun hcon => hact hcon.1)] at hrun
      cases hrun
      exact ⟨hall', hgpus⟩
  · intro s0 f0
    exact startAllWorkers_allRecorded s0 f0

/-- Witness for C10 on the concrete two-slot fleet: both units are
recorded, so both count as active and the no-active-workers branch is
not taken. -/
theorem C10_no_active_branch_unreachable_witness :
    activeUnits twoSlotOneDead = twoSlotOneDead.gpus.length ∧
    monitorTick twoSlotOneDead 100 ≠ TickResult.exitedNoActive := by
  have h := C10_no_active_branch_unreachable twoSlotOneDead 100
    (by unfold AllWorkersRecorded; decide) (by decide)
  exact ⟨h.1, h.2.1⟩
